import Mathlib

/-!
# MIT 6.828 (JOS): address translation and trap dispatch

A shallow embedding of `kern/pmap.h` (the `PADDR`/`KADDR` conversions) and of
`kern/trap.c` (IDT setup, trap dispatch, page-fault handler), with the
properties stated in the specification proved over it.

Conventions.
* 32-bit machine words (`uint32_t`, `physaddr_t`, pointers cast to integers)
  are natural numbers; arithmetic that can wrap is reduced modulo `2 ^ 32`.
* Constants and macros of headers that are not part of the sources at hand
  (`inc/memlayout.h`, `inc/mmu.h`, `inc/trap.h`, ...) are parameters; the values
  of the JOS headers are collected in `jos` and `JOS_KERNBASE` and are used
  only to instantiate results at concrete inputs.
-/

namespace JOS

/-! ## kern/pmap.h -/

/-- A call of `_panic(file, line, fmt, ...)`: the kernel stops with a
diagnostic; the call does not return. The variadic arguments are all
integers at every call site of the embedded code. -/
structure Panic where
  file : String
  line : Nat
  fmt : String
  args : List Nat
deriving DecidableEq

/-- Modelled from the spec: the macro `PGNUM` of `inc/mmu.h` is not among the
sources. The frame number of an address is the address without its 12-bit
page offset ("offset: 12 bits"; frame `i` is the frame at `i * PAGESIZE`). -/
def PGNUM (la : Nat) : Nat := la >>> 12

/-- Source `_paddr` (kern/pmap.h:28-34).
`KERNBASE` (inc/memlayout.h) is a parameter. The subtraction is the 32-bit
one. -/
def _paddr (KERNBASE : Nat) (file : String) (line : Nat) (kva : Nat) : Except Panic Nat :=
  if kva < KERNBASE then
    .error ⟨file, line, "PADDR called with invalid kva %08lx", [kva]⟩
  else
    .ok ((kva + 2 ^ 32 - KERNBASE) % 2 ^ 32)

/-- Source `_kaddr` (kern/pmap.h:40-46).
`npages` is the global of that name, `KERNBASE` a parameter. The addition is
the 32-bit one. -/
def _kaddr (KERNBASE npages : Nat) (file : String) (line : Nat) (pa : Nat) : Except Panic Nat :=
  if PGNUM pa ≥ npages then
    .error ⟨file, line, "KADDR called with invalid pa %08lx", [pa]⟩
  else
    .ok ((pa + KERNBASE) % 2 ^ 32)

/-- The value of `KERNBASE` in the JOS headers (inc/memlayout.h): the top
256MB of the 32-bit address space. -/
def JOS_KERNBASE : Nat := 0xF0000000

/-! ## kern/trap.c: data -/

/-- The general-purpose registers saved by `pushal` (`struct PushRegs`,
inc/trap.h), with the fields `print_regs` reads. -/
structure PushRegs where
  reg_edi : Nat
  reg_esi : Nat
  reg_ebp : Nat
  reg_oesp : Nat
  reg_ebx : Nat
  reg_edx : Nat
  reg_ecx : Nat
  reg_eax : Nat
deriving DecidableEq

/-- The saved execution context (`struct Trapframe`, inc/trap.h), with the
fields `kern/trap.c` reads or writes. -/
structure Trapframe where
  tf_regs : PushRegs
  tf_es : Nat
  tf_ds : Nat
  tf_trapno : Nat
  tf_err : Nat
  tf_eip : Nat
  tf_cs : Nat
  tf_eflags : Nat
  tf_esp : Nat
  tf_ss : Nat
deriving DecidableEq

/-- The part of `struct Env` (inc/env.h) that `kern/trap.c` touches. -/
structure Env where
  env_tf : Trapframe
  env_id : Nat
  env_status : Nat
deriving DecidableEq

/-- A `struct Trapframe *`: either the frame the entry stub built on the
kernel stack, or `&envs[e].env_tf`, the saved frame of environment `e`. -/
inductive TfPtr where
  | stack
  | env_tf (e : Nat)
deriving DecidableEq

/-- The memory and registers the embedded code reads and writes.
A `struct Env *` is `some e` (the address of environment number `e`) or
`none` (`NULL`). `eflags` is the value `read_eflags()` returns. -/
structure Machine where
  stack_tf : Trapframe
  envs : Nat → Env
  curenv : Option Nat
  cr2 : Nat
  eflags : Nat

/-- An argument of a `cprintf` call. -/
inductive Arg where
  | num (n : Nat)
  | str (s : String)
  | ptr (p : TfPtr)
deriving DecidableEq

/-- A call that leaves the code of `kern/trap.c` and comes back: console
output and the three external collaborators that return. -/
inductive Event where
  | cprintf (fmt : String) (args : List Arg)
  | monitor (tf : TfPtr)
  | syscall (syscallno a1 a2 a3 a4 a5 : Nat)
  | env_destroy (e : Option Nat)
deriving DecidableEq

/-- The ways control leaves the embedded code for good.
* `panic`: `_panic` was called.
* `assert_failed`: an `assert(x)` failed (fatal, inc/assert.h); `expr` is the
  text of `x`.
* `env_pop_tf tf`: `env_pop_tf(tf)` restored the registers of `tf` and
  resumed the environment.
* `env_run e`: `env_run(e)` switched to environment `e`.
* `null_deref`: a field of `*curenv` was read while `curenv` was `NULL`;
  C gives this no meaning, and nothing after it is modelled. -/
inductive Stop where
  | panic (p : Panic)
  | assert_failed (expr : String)
  | env_pop_tf (tf : TfPtr)
  | env_run (e : Option Nat)
  | null_deref
deriving DecidableEq

/-- The state threaded through the embedded code: the machine, the static
variable `last_tf` of `kern/trap.c`, and the calls made so far, oldest
first. -/
structure KState where
  m : Machine
  last_tf : Option TfPtr
  log : List Event

/-- The outcome of running a piece of the kernel: it returned `a`, or
control left for good. Either way the state reached is kept. -/
inductive Result (α : Type) where
  | ok (a : α) (s : KState)
  | stop (h : Stop) (s : KState)

/-- The state a run ended in. -/
def Result.state {α : Type} : Result α → KState
  | .ok _ s => s
  | .stop _ s => s

/-- A piece of kernel code returning an `α`. -/
def K (α : Type) : Type := KState → Result α

/-- Sequencing: when the first part does not return, neither does the
whole. -/
def K.bind {α β : Type} (x : K α) (f : α → K β) : K β := fun s =>
  match x s with
  | .ok a s1 => f a s1
  | .stop h s1 => .stop h s1

instance : Monad K where
  pure a := fun s => .ok a s
  bind := K.bind

/-- Modelled from the spec: `syscall`, `monitor` and `env_destroy` are defined
outside `kern/trap.c`; section 6 lists them as the syscall dispatch function
`(number, a1..a5) → return value`, the debugger entry point
`enter(trap-frame)` and `destroy(environment)`. Here each of them returns to
its caller and may change the machine in any way; `syscall` also yields its
32-bit return value. -/
structure Externals where
  syscall : Nat → Nat → Nat → Nat → Nat → Nat → Machine → Nat × Machine
  monitor : TfPtr → Machine → Machine
  env_destroy : Option Nat → Machine → Machine

/-- A segment descriptor (`struct Segdesc`, inc/mmu.h), as far as
`trap_init_percpu` is concerned. -/
structure Segdesc where
  sd_type : Nat
  sd_base : Nat
  sd_lim : Nat
  sd_dpl : Nat
  sd_s : Nat
  sd_p : Nat
deriving DecidableEq

/-- Constants and macros of headers that are not among the sources: trap
numbers (inc/trap.h), segment selectors and `KSTACKTOP` (inc/memlayout.h),
flag bits, descriptor types and the macro `SEG16` (inc/mmu.h),
`ENV_RUNNING` (inc/env.h), and two `sizeof`s. -/
structure Consts where
  T_DIVIDE : Nat
  T_DEBUG : Nat
  T_NMI : Nat
  T_BRKPT : Nat
  T_OFLOW : Nat
  T_BOUND : Nat
  T_ILLOP : Nat
  T_DEVICE : Nat
  T_DBLFLT : Nat
  T_TSS : Nat
  T_SEGNP : Nat
  T_STACK : Nat
  T_GPFLT : Nat
  T_PGFLT : Nat
  T_FPERR : Nat
  T_ALIGN : Nat
  T_MCHK : Nat
  T_SIMDERR : Nat
  T_SYSCALL : Nat
  GD_KT : Nat
  GD_KD : Nat
  GD_TSS0 : Nat
  FL_IF : Nat
  ENV_RUNNING : Nat
  STS_T32A : Nat
  STS_IG32 : Nat
  STS_TG32 : Nat
  KSTACKTOP : Nat
  sizeof_Taskstate : Nat
  sizeof_Gatedesc : Nat
  SEG16 : Nat → Nat → Nat → Nat → Segdesc

/-- The values of the JOS headers. -/
def jos : Consts where
  T_DIVIDE := 0
  T_DEBUG := 1
  T_NMI := 2
  T_BRKPT := 3
  T_OFLOW := 4
  T_BOUND := 5
  T_ILLOP := 6
  T_DEVICE := 7
  T_DBLFLT := 8
  T_TSS := 10
  T_SEGNP := 11
  T_STACK := 12
  T_GPFLT := 13
  T_PGFLT := 14
  T_FPERR := 16
  T_ALIGN := 17
  T_MCHK := 18
  T_SIMDERR := 19
  T_SYSCALL := 48
  GD_KT := 0x08
  GD_KD := 0x10
  GD_TSS0 := 0x28
  FL_IF := 0x200
  ENV_RUNNING := 3
  STS_T32A := 0x9
  STS_IG32 := 0xE
  STS_TG32 := 0xF
  KSTACKTOP := 0xF0000000
  sizeof_Taskstate := 104
  sizeof_Gatedesc := 8
  SEG16 := fun type base lim dpl => ⟨type, base, lim, dpl, 1, 1⟩

/-- Addresses fixed at link time: the entry stubs that `trap_init` declares
(defined in assembly outside `kern/trap.c`) and the static objects `ts` and
`idt`. -/
structure Symbols where
  divide_entry : Nat
  debug_entry : Nat
  nmi_entry : Nat
  brkpt_entry : Nat
  oflow_entry : Nat
  bound_entry : Nat
  illop_entry : Nat
  device_entry : Nat
  dblflt_entry : Nat
  tss_entry : Nat
  segnp_entry : Nat
  stack_entry : Nat
  gpflt_entry : Nat
  pgflt_entry : Nat
  fperr_entry : Nat
  align_entry : Nat
  mchk_entry : Nat
  simderr_entry : Nat
  syscall_entry : Nat
  addr_ts : Nat
  addr_idt : Nat
deriving DecidableEq

/-- Modelled from the spec: `struct Gatedesc` (inc/mmu.h) is not among the
sources. A gate descriptor binds a vector "to an entry-stub address, a
required privilege level to invoke it from, and whether it is a trap gate
... or interrupt gate", through a code-segment selector; `gd_p` is its
present bit. -/
structure Gatedesc where
  gd_off : Nat
  gd_sel : Nat
  gd_type : Nat
  gd_dpl : Nat
  gd_p : Nat
deriving DecidableEq

/-- The task state segment (`struct Taskstate`, inc/mmu.h), with the fields
`trap_init_percpu` writes. -/
structure Taskstate where
  ts_esp0 : Nat
  ts_ss0 : Nat
  ts_iomb : Nat
deriving DecidableEq

/-- The operand of `lidt` (`struct Pseudodesc`). -/
structure Pseudodesc where
  pd_lim : Nat
  pd_base : Nat
deriving DecidableEq

/-- The descriptor tables and table registers `trap_init` and
`trap_init_percpu` set up: the globals `idt`, `ts` and `gdt`, the task
register (`ltr`) and the IDT register (`lidt`). -/
structure CpuTables where
  idt : Nat → Gatedesc
  ts : Taskstate
  gdt : Nat → Segdesc
  tr : Nat
  idtr : Pseudodesc

/-! ## kern/trap.c: IDT setup -/

/-- Modelled from the spec: the macro `SETGATE(gate, istrap, sel, off, dpl)`
(inc/mmu.h) is not among the sources. It fills in a gate descriptor: the
entry point `off` in segment `sel`, trap gate when `istrap` is nonzero and
interrupt gate otherwise, required privilege level `dpl`, present. -/
def SETGATE (c : Consts) (istrap sel off dpl : Nat) : Gatedesc :=
  { gd_off := off
    gd_sel := sel
    gd_type := if istrap ≠ 0 then c.STS_TG32 else c.STS_IG32
    gd_dpl := dpl
    gd_p := 1 }

/-- The assignment `idt[v] = g`. -/
def setIdt (v : Nat) (g : Gatedesc) (t : CpuTables) : CpuTables :=
  { t with idt := fun i => if i = v then g else t.idt i }

/-- The initial value of every `idt` entry: `struct Gatedesc idt[256] =
{ { 0 } }` (kern/trap.c:23). -/
def zeroGate : Gatedesc := ⟨0, 0, 0, 0, 0⟩

/-- The initializer of `idt_pd` (kern/trap.c:24-26):
`{ sizeof(idt) - 1, (uint32_t) idt }`. -/
def idt_pd (c : Consts) (y : Symbols) : Pseudodesc :=
  ⟨256 * c.sizeof_Gatedesc - 1, y.addr_idt⟩

/-- Source `trap_init_percpu` (kern/trap.c:94-114). -/
def trap_init_percpu (c : Consts) (y : Symbols) (t : CpuTables) : CpuTables :=
  let t := { t with ts := { t.ts with ts_esp0 := c.KSTACKTOP } }
  let t := { t with ts := { t.ts with ts_ss0 := c.GD_KD } }
  let t := { t with ts := { t.ts with ts_iomb := c.sizeof_Taskstate } }
  let d := c.SEG16 c.STS_T32A y.addr_ts (c.sizeof_Taskstate - 1) 0
  let t := { t with gdt := fun i => if i = c.GD_TSS0 >>> 3 then d else t.gdt i }
  let t := { t with gdt := fun i =>
    if i = c.GD_TSS0 >>> 3 then { t.gdt i with sd_s := 0 } else t.gdt i }
  let t := { t with tr := c.GD_TSS0 }
  { t with idtr := idt_pd c y }

/-- Source `trap_init` (kern/trap.c:62-91), one `SETGATE` per line, in the
order of the source. -/
def trap_init (c : Consts) (y : Symbols) (t : CpuTables) : CpuTables :=
  let t := setIdt c.T_DIVIDE (SETGATE c 1 c.GD_KT y.divide_entry 0) t
  let t := setIdt c.T_DEBUG (SETGATE c 1 c.GD_KT y.debug_entry 0) t
  let t := setIdt c.T_BRKPT (SETGATE c 0 c.GD_KT y.nmi_entry 0) t
  let t := setIdt c.T_BRKPT (SETGATE c 1 c.GD_KT y.brkpt_entry 3) t
  let t := setIdt c.T_OFLOW (SETGATE c 1 c.GD_KT y.oflow_entry 0) t
  let t := setIdt c.T_BOUND (SETGATE c 1 c.GD_KT y.bound_entry 0) t
  let t := setIdt c.T_ILLOP (SETGATE c 1 c.GD_KT y.illop_entry 0) t
  let t := setIdt c.T_DEVICE (SETGATE c 1 c.GD_KT y.device_entry 0) t
  let t := setIdt c.T_DBLFLT (SETGATE c 1 c.GD_KT y.dblflt_entry 0) t
  let t := setIdt c.T_TSS (SETGATE c 1 c.GD_KT y.tss_entry 0) t
  let t := setIdt c.T_SEGNP (SETGATE c 1 c.GD_KT y.segnp_entry 0) t
  let t := setIdt c.T_STACK (SETGATE c 1 c.GD_KT y.stack_entry 0) t
  let t := setIdt c.T_GPFLT (SETGATE c 1 c.GD_KT y.gpflt_entry 0) t
  let t := setIdt c.T_PGFLT (SETGATE c 1 c.GD_KT y.pgflt_entry 0) t
  let t := setIdt c.T_FPERR (SETGATE c 1 c.GD_KT y.fperr_entry 0) t
  let t := setIdt c.T_ALIGN (SETGATE c 1 c.GD_KT y.align_entry 0) t
  let t := setIdt c.T_MCHK (SETGATE c 1 c.GD_KT y.mchk_entry 0) t
  let t := setIdt c.T_SIMDERR (SETGATE c 1 c.GD_KT y.simderr_entry 0) t
  let t := setIdt c.T_SYSCALL (SETGATE c 0 c.GD_KT y.syscall_entry 3) t
  trap_init_percpu c y t

/-- The tables before `trap_init`: `idt` is the zero-initialized global; the
other parts are as the boot code left them. -/
def bootTables (ts : Taskstate) (gdt : Nat → Segdesc) (tr : Nat) (idtr : Pseudodesc) :
    CpuTables :=
  { idt := fun _ => zeroGate, ts := ts, gdt := gdt, tr := tr, idtr := idtr }

/-! ## kern/trap.c: primitive operations -/

/-- Reads `*tf`. -/
def readTf (tf : TfPtr) (m : Machine) : Trapframe :=
  match tf with
  | .stack => m.stack_tf
  | .env_tf e => (m.envs e).env_tf

/-- Writes `*tf = v`. -/
def writeTf (tf : TfPtr) (v : Trapframe) (m : Machine) : Machine :=
  match tf with
  | .stack => { m with stack_tf := v }
  | .env_tf e =>
    { m with envs := fun i => if i = e then { m.envs i with env_tf := v } else m.envs i }

/-- Evaluates `*tf`. -/
def load_tf (tf : TfPtr) : K Trapframe := fun s => .ok (readTf tf s.m) s

/-- Executes `*tf = v`. -/
def store_tf (tf : TfPtr) (v : Trapframe) : K Unit := fun s =>
  .ok () { s with m := writeTf tf v s.m }

/-- Evaluates the global `curenv`. -/
def get_curenv : K (Option Nat) := fun s => .ok s.m.curenv s

/-- Evaluates `*e` for a `struct Env *e`; a `NULL` pointer has nothing to
read. -/
def load_env (e : Option Nat) : K Env := fun s =>
  match e with
  | some i => .ok (s.m.envs i) s
  | none => .stop .null_deref s

/-- Evaluates the static `last_tf`. -/
def get_last_tf : K (Option TfPtr) := fun s => .ok s.last_tf s

/-- Executes `last_tf = tf`. -/
def set_last_tf (tf : TfPtr) : K Unit := fun s => .ok () { s with last_tf := some tf }

/-- The call `rcr2()` (inc/x86.h): the fault-address register. -/
def rcr2 : K Nat := fun s => .ok s.m.cr2 s

/-- The call `read_eflags()` (inc/x86.h). -/
def read_eflags : K Nat := fun s => .ok s.m.eflags s

/-- The call `cprintf(fmt, args...)`: console output, recorded. -/
def cprintf (fmt : String) (args : List Arg) : K Unit := fun s =>
  .ok () { s with log := s.log ++ [.cprintf fmt args] }

/-- The macro call `panic(fmt, args...)` at line `line` of `kern/trap.c`,
that is `_panic(__FILE__, __LINE__, fmt, args...)`; it does not return. -/
def panic {α : Type} (line : Nat) (fmt : String) (args : List Nat) : K α := fun s =>
  .stop (.panic ⟨"kern/trap.c", line, fmt, args⟩) s

/-- The statement `assert(x)`, where `b` is the value of `x` and `expr` its
text: fatal when `x` is false. -/
def assert (b : Bool) (expr : String) : K Unit := fun s =>
  if b then .ok () s else .stop (.assert_failed expr) s

/-- The call `monitor(tf)`: recorded, then the debugger acts and returns. -/
def monitor (ext : Externals) (tf : TfPtr) : K Unit := fun s =>
  .ok () { s with m := ext.monitor tf s.m, log := s.log ++ [.monitor tf] }

/-- The call `syscall(syscallno, a1, a2, a3, a4, a5)`: recorded, then the
handler acts and returns its value. -/
def syscall (ext : Externals) (syscallno a1 a2 a3 a4 a5 : Nat) : K Nat := fun s =>
  .ok (ext.syscall syscallno a1 a2 a3 a4 a5 s.m).1
    { s with m := (ext.syscall syscallno a1 a2 a3 a4 a5 s.m).2,
             log := s.log ++ [.syscall syscallno a1 a2 a3 a4 a5] }

/-- The call `env_destroy(e)`: recorded, then the environment code acts and
returns. -/
def env_destroy (ext : Externals) (e : Option Nat) : K Unit := fun s =>
  .ok () { s with m := ext.env_destroy e s.m, log := s.log ++ [.env_destroy e] }

/-- Modelled from the spec: `env_pop_tf` is defined outside `kern/trap.c`.
The call `env_pop_tf(tf)` is how the syscall path does "directly resume the
environment": it restores the registers from `*tf` and does not return. -/
def env_pop_tf {α : Type} (tf : TfPtr) : K α := fun s => .stop (.env_pop_tf tf) s

/-- Modelled from the spec: `env_run` is defined outside `kern/trap.c`.
The call `env_run(e)` is `resume(environment)`, which "never returns
normally". -/
def env_run {α : Type} (e : Option Nat) : K α := fun s => .stop (.env_run e) s

/-! ## kern/trap.c: printing -/

/-- The table `excnames` of `trapname` (kern/trap.c:31-52). -/
def excnames : List String :=
  [ "Divide error",
    "Debug",
    "Non-Maskable Interrupt",
    "Breakpoint",
    "Overflow",
    "BOUND Range Exceeded",
    "Invalid Opcode",
    "Device Not Available",
    "Double Fault",
    "Coprocessor Segment Overrun",
    "Invalid TSS",
    "Segment Not Present",
    "Stack Fault",
    "General Protection",
    "Page Fault",
    "(unknown trap)",
    "x87 FPU Floating-Point Error",
    "Alignment Check",
    "Machine-Check",
    "SIMD Floating-Point Exception" ]

/-- Source `trapname` (kern/trap.c:29-59). -/
def trapname (c : Consts) (trapno : Nat) : String :=
  if h : trapno < excnames.length then
    excnames[trapno]
  else if trapno = c.T_SYSCALL then
    "System call"
  else
    "(unknown trap)"

/-- Source `print_regs` (kern/trap.c:149-160); `regs` is `&tf->tf_regs`. -/
def print_regs (tf : TfPtr) : K Unit := do
  cprintf "  edi  0x%08x\n" [.num (← load_tf tf).tf_regs.reg_edi]
  cprintf "  esi  0x%08x\n" [.num (← load_tf tf).tf_regs.reg_esi]
  cprintf "  ebp  0x%08x\n" [.num (← load_tf tf).tf_regs.reg_ebp]
  cprintf "  oesp 0x%08x\n" [.num (← load_tf tf).tf_regs.reg_oesp]
  cprintf "  ebx  0x%08x\n" [.num (← load_tf tf).tf_regs.reg_ebx]
  cprintf "  edx  0x%08x\n" [.num (← load_tf tf).tf_regs.reg_edx]
  cprintf "  ecx  0x%08x\n" [.num (← load_tf tf).tf_regs.reg_ecx]
  cprintf "  eax  0x%08x\n" [.num (← load_tf tf).tf_regs.reg_eax]

/-- Source `print_trapframe` (kern/trap.c:116-147). -/
def print_trapframe (c : Consts) (tf : TfPtr) : K Unit := do
  cprintf "TRAP frame at %p\n" [.ptr tf]
  print_regs tf
  cprintf "  es   0x----%04x\n" [.num (← load_tf tf).tf_es]
  cprintf "  ds   0x----%04x\n" [.num (← load_tf tf).tf_ds]
  cprintf "  trap 0x%08x %s\n"
    [.num (← load_tf tf).tf_trapno, .str (trapname c (← load_tf tf).tf_trapno)]
  if some tf = (← get_last_tf) ∧ (← load_tf tf).tf_trapno = c.T_PGFLT then
    cprintf "  cr2  0x%08x\n" [.num (← rcr2)]
  cprintf "  err  0x%08x" [.num (← load_tf tf).tf_err]
  if (← load_tf tf).tf_trapno = c.T_PGFLT then
    cprintf " [%s, %s, %s]\n"
      [ .str (if (← load_tf tf).tf_err &&& 4 ≠ 0 then "user" else "kernel"),
        .str (if (← load_tf tf).tf_err &&& 2 ≠ 0 then "write" else "read"),
        .str (if (← load_tf tf).tf_err &&& 1 ≠ 0 then "protection" else "not-present") ]
  else
    cprintf "\n" []
  cprintf "  eip  0x%08x\n" [.num (← load_tf tf).tf_eip]
  cprintf "  cs   0x----%04x\n" [.num (← load_tf tf).tf_cs]
  cprintf "  flag 0x%08x\n" [.num (← load_tf tf).tf_eflags]
  if (← load_tf tf).tf_cs &&& 3 ≠ 0 then
    cprintf "  esp  0x%08x\n" [.num (← load_tf tf).tf_esp]
    cprintf "  ss   0x----%04x\n" [.num (← load_tf tf).tf_ss]

/-! ## kern/trap.c: dispatch -/

/-- Source `page_fault_handler` (kern/trap.c:255-288). -/
def page_fault_handler (c : Consts) (ext : Externals) (tf : TfPtr) : K Unit := do
  let fault_va ← rcr2
  cprintf "打印：fault_va=%08x,tf->tf_cs dpl:0x%02x\n"
    [.num fault_va, .num ((← load_tf tf).tf_cs &&& 3)]
  if (← load_tf tf).tf_cs &&& 3 = 0 then
    panic 274 "[%08x] kernel fault va %08x ip %08x\n"
      [(← load_env (← get_curenv)).env_id, fault_va, (← load_tf tf).tf_eip]
  cprintf "[%08x] user fault va %08x ip %08x\n"
    [.num (← load_env (← get_curenv)).env_id, .num fault_va, .num (← load_tf tf).tf_eip]
  print_trapframe c tf
  env_destroy ext (← get_curenv)

/-- Source `trap_dispatch` (kern/trap.c:162-214). -/
def trap_dispatch (c : Consts) (ext : Externals) (tf : TfPtr) : K Unit := do
  cprintf "中断号码：tf->tf_trapno=%d\n" [.num (← load_tf tf).tf_trapno]
  if (← load_tf tf).tf_trapno = c.T_PGFLT then
    page_fault_handler c ext tf
  if (← load_tf tf).tf_trapno = c.T_BRKPT then
    monitor ext tf
  if (← load_tf tf).tf_trapno = c.T_SYSCALL then
    let syscallno := (← load_tf tf).tf_regs.reg_eax
    let a1 := (← load_tf tf).tf_regs.reg_edx
    let a2 := (← load_tf tf).tf_regs.reg_ecx
    let a3 := (← load_tf tf).tf_regs.reg_ebx
    let a4 := (← load_tf tf).tf_regs.reg_edi
    let a5 := (← load_tf tf).tf_regs.reg_esi
    cprintf "kern/trap.c: syscallno=%x,a1=%x,a2=%x,a3=%x,a4=%x,a5=%x\n"
      [.num syscallno, .num a1, .num a2, .num a3, .num a4, .num a5]
    let r ← syscall ext syscallno a1 a2 a3 a4 a5
    let f ← load_tf tf
    store_tf tf { f with tf_regs := { f.tf_regs with reg_eax := r } }
    env_pop_tf tf
  print_trapframe c tf
  if (← load_tf tf).tf_cs = c.GD_KT then
    panic 209 "unhandled trap in kernel" []
  else
    env_destroy ext (← get_curenv)
    return

/-- The common epilogue of `trap` (kern/trap.c:249-251): the final `assert`
and `env_run(curenv)`. -/
def trap_epilogue (c : Consts) : K Unit := do
  match (← get_curenv) with
  | none => assert false "curenv && curenv->env_status == ENV_RUNNING"
  | some e =>
    assert ((← load_env (some e)).env_status == c.ENV_RUNNING)
      "curenv && curenv->env_status == ENV_RUNNING"
  env_run (← get_curenv)

/-- Source `trap` (kern/trap.c:216-252). The instruction `cld` clears the
direction flag only, which the model does not track. After `assert(curenv)`
the pointer `curenv` is not `NULL`, so the `none` branch below is never
taken. -/
def trap (c : Consts) (ext : Externals) (tf : TfPtr) : K Unit := do
  assert ((← read_eflags) &&& c.FL_IF == 0) "!(read_eflags() & FL_IF)"
  cprintf "Incoming TRAP frame at %p\n" [.ptr tf]
  let tf ←
    if (← load_tf tf).tf_cs &&& 3 = 3 then do
      assert (← get_curenv).isSome "curenv"
      match (← get_curenv) with
      | some e =>
        store_tf (.env_tf e) (← load_tf tf)
        pure (TfPtr.env_tf e)
      | none => pure tf
    else
      pure tf
  set_last_tf tf
  trap_dispatch c ext tf
  trap_epilogue c

/-! ## Observations and concrete inputs -/

/-- What stopped a run, if anything did. -/
def Result.stopped {α : Type} : Result α → Option Stop
  | .ok _ _ => none
  | .stop h _ => some h

/-- The arguments of the `env_destroy` calls of a log, oldest first. -/
def env_destroy_calls (l : List Event) : List (Option Nat) :=
  l.filterMap fun ev =>
    match ev with
    | .env_destroy e => some e
    | _ => none

/-- The console output of `print_trapframe(tf)` run from state `s`: what the
source function appends to the log. -/
def print_trapframe_out (c : Consts) (tf : TfPtr) (s : KState) : List Event :=
  (print_trapframe c tf { s with log := [] }).state.log

/-- Running `k` from a state satisfying `P` ends in a state satisfying
`P`, whether `k` returns or not. -/
structure Keeps (P : KState → Prop) {α : Type} (k : K α) : Prop where
  run : ∀ s, P s → P (k s).state

/-- The external functions leave the frame on the kernel stack alone. -/
def ExtKeepsStack (ext : Externals) : Prop :=
  (∀ n a1 a2 a3 a4 a5 m, (ext.syscall n a1 a2 a3 a4 a5 m).2.stack_tf = m.stack_tf) ∧
  (∀ tf m, (ext.monitor tf m).stack_tf = m.stack_tf) ∧
  (∀ e m, (ext.env_destroy e m).stack_tf = m.stack_tf)

/-- A trap frame for concrete runs: vector `trapno`, code segment `cs`. -/
def frame0 (trapno cs : Nat) : Trapframe :=
  { tf_regs := ⟨1, 2, 3, 4, 5, 6, 7, 8⟩, tf_es := 0x23, tf_ds := 0x23, tf_trapno := trapno,
    tf_err := 4, tf_eip := 0x800020, tf_cs := cs, tf_eflags := 2, tf_esp := 0xeebfdfd0,
    tf_ss := 0x23 }

/-- External functions for concrete runs: `syscall` returns 0, `monitor`
returns at once, `env_destroy` marks the environment free (`ENV_FREE`, 0)
and returns. -/
def ext0 : Externals where
  syscall := fun _ _ _ _ _ _ m => (0, m)
  monitor := fun _ m => m
  env_destroy := fun e m =>
    match e with
    | some i =>
      { m with envs := fun j => if j = i then { m.envs j with env_status := 0 } else m.envs j }
    | none => m

/-- A state for concrete runs: `stack` is the frame on the kernel stack,
`saved` the saved frame of every environment (environment `i` has id
`0x1000 + i` and is `ENV_RUNNING`), `cur` the value of `curenv`; interrupts
are disabled, `%cr2` holds `0xdeadbeef`, nothing is logged yet. -/
def state0 (stack saved : Trapframe) (cur : Option Nat) : KState :=
  { m := { stack_tf := stack, envs := fun i => ⟨saved, 0x1000 + i, 3⟩, curenv := cur,
           cr2 := 0xdeadbeef, eflags := 2 },
    last_tf := none, log := [] }

/-! ## Address translation (kern/pmap.h) -/

theorem PGNUM_lt_iff (pa n : Nat) : PGNUM pa < n ↔ pa < n * 4096 := by
  unfold PGNUM
  rw [Nat.shiftRight_eq_div_pow]
  exact Nat.div_lt_iff_lt_mul (by norm_num)

/-- When all managed memory fits in the window above `KERNBASE`, the
kernel-virtual address of a managed physical address does not wrap. -/
theorem window_fits (KERNBASE npages pa : Nat) (hn : PGNUM pa < npages)
    (hfit : npages * 4096 + KERNBASE ≤ 2 ^ 32) : pa + KERNBASE < 2 ^ 32 := by
  have := (PGNUM_lt_iff pa npages).1 hn
  omega

/-- C1: for every 32-bit kernel virtual address `kva` and every `npages` with
`kva ≥ KERNBASE` and `PGNUM(kva - KERNBASE) < npages`, `_paddr(kva)` does not
panic (it returns `kva - KERNBASE`), `_kaddr` applied to that result does not
panic, and `_kaddr(_paddr(kva)) = kva`. -/
theorem paddr_kaddr_roundtrip (KERNBASE npages kva : Nat) (file1 file2 : String)
    (line1 line2 : Nat) (h32 : kva < 2 ^ 32) (hk : KERNBASE ≤ kva)
    (hn : PGNUM (kva - KERNBASE) < npages) :
    _paddr KERNBASE file1 line1 kva = .ok (kva - KERNBASE) ∧
    _kaddr KERNBASE npages file2 line2 (kva - KERNBASE) = .ok kva ∧
    (_paddr KERNBASE file1 line1 kva >>= _kaddr KERNBASE npages file2 line2) = .ok kva := by
  have h1 : _paddr KERNBASE file1 line1 kva = .ok (kva - KERNBASE) := by
    unfold _paddr
    rw [if_neg (by omega)]
    congr 1
    have : kva + 2 ^ 32 - KERNBASE = (kva - KERNBASE) + 2 ^ 32 := by omega
    rw [this, Nat.add_mod_right, Nat.mod_eq_of_lt (by omega)]
  have h2 : _kaddr KERNBASE npages file2 line2 (kva - KERNBASE) = .ok kva := by
    unfold _kaddr
    rw [if_neg (by omega)]
    congr 1
    rw [Nat.sub_add_cancel hk, Nat.mod_eq_of_lt h32]
  refine ⟨h1, h2, ?_⟩
  rw [h1]
  exact h2

/-- C1 at `kva = 0xF0001234` with 16 managed frames. -/
theorem paddr_kaddr_roundtrip_witness :
    _paddr JOS_KERNBASE "kern/pmap.c" 1 0xF0001234 = .ok (0xF0001234 - JOS_KERNBASE) ∧
    _kaddr JOS_KERNBASE 16 "kern/pmap.c" 2 (0xF0001234 - JOS_KERNBASE) = .ok 0xF0001234 ∧
    (_paddr JOS_KERNBASE "kern/pmap.c" 1 0xF0001234 >>= _kaddr JOS_KERNBASE 16 "kern/pmap.c" 2)
      = .ok 0xF0001234 :=
  paddr_kaddr_roundtrip JOS_KERNBASE 16 0xF0001234 "kern/pmap.c" "kern/pmap.c" 1 2
    (by decide) (by decide) (by decide)

/-- C2: for every physical address `pa` and every `npages`, `_kaddr(pa)`
panics exactly when the frame number `PGNUM(pa)` (`pa` shifted right by 12) is
`≥ npages`, with the message of the source; otherwise it returns
`pa + KERNBASE` computed in 32-bit arithmetic. -/
theorem kaddr_panics_iff (KERNBASE npages pa : Nat) (file : String) (line : Nat) :
    ((∃ p, _kaddr KERNBASE npages file line pa = .error p) ↔ PGNUM pa ≥ npages) ∧
    (PGNUM pa ≥ npages → _kaddr KERNBASE npages file line pa =
      .error ⟨file, line, "KADDR called with invalid pa %08lx", [pa]⟩) ∧
    (¬ PGNUM pa ≥ npages →
      _kaddr KERNBASE npages file line pa = .ok ((pa + KERNBASE) % 2 ^ 32)) ∧
    PGNUM pa = pa / 2 ^ 12 := by
  refine ⟨?_, ?_, ?_, ?_⟩
  · unfold _kaddr
    split_ifs with h
    · simp [h]
    · simp [h]
  · intro h
    simp [_kaddr, h]
  · intro h
    simp [_kaddr, h]
  · simp [PGNUM, Nat.shiftRight_eq_div_pow]

/-- C10 as stated fails: with `KERNBASE = 0xF0000000` and `npages = 0x10001`
(one frame more than 256MB), `pa = 0x10000000` has `PGNUM(pa) < npages`, yet
`_kaddr(pa)` wraps to 0, which is below `KERNBASE`, and `_paddr` panics on
it. -/
theorem kaddr_paddr_overflow :
    PGNUM 0x10000000 < 0x10001 ∧
    _kaddr JOS_KERNBASE 0x10001 "kern/pmap.c" 1 0x10000000 = .ok 0 ∧
    ¬ (0 ≥ JOS_KERNBASE) ∧
    _paddr JOS_KERNBASE "kern/pmap.c" 2 0 =
      .error ⟨"kern/pmap.c", 2, "PADDR called with invalid kva %08lx", [0]⟩ :=
  ⟨by decide, rfl, by decide, rfl⟩

/-- C10 (amended): for every physical address `pa` and every `npages` with
`PGNUM(pa) < npages` and `pa + KERNBASE < 2 ^ 32` (the sum does not wrap, as
is the case whenever `npages * 4096 + KERNBASE ≤ 2 ^ 32`, see `window_fits`),
`_kaddr(pa)` is `pa + KERNBASE`, which is `≥ KERNBASE`, so `_paddr` accepts it
without panic, and `_paddr(_kaddr(pa)) = pa`. -/
theorem kaddr_paddr_roundtrip (KERNBASE npages pa : Nat) (file1 file2 : String)
    (line1 line2 : Nat) (hn : PGNUM pa < npages) (hfit : pa + KERNBASE < 2 ^ 32) :
    _kaddr KERNBASE npages file1 line1 pa = .ok (pa + KERNBASE) ∧
    pa + KERNBASE ≥ KERNBASE ∧
    _paddr KERNBASE file2 line2 (pa + KERNBASE) = .ok pa ∧
    (_kaddr KERNBASE npages file1 line1 pa >>= _paddr KERNBASE file2 line2) = .ok pa := by
  have h1 : _kaddr KERNBASE npages file1 line1 pa = .ok (pa + KERNBASE) := by
    unfold _kaddr
    rw [if_neg (by omega), Nat.mod_eq_of_lt hfit]
  have h2 : _paddr KERNBASE file2 line2 (pa + KERNBASE) = .ok pa := by
    unfold _paddr
    rw [if_neg (by omega)]
    congr 1
    have : pa + KERNBASE + 2 ^ 32 - KERNBASE = pa + 2 ^ 32 := by omega
    rw [this, Nat.add_mod_right, Nat.mod_eq_of_lt (by omega)]
  refine ⟨h1, Nat.le_add_left _ _, h2, ?_⟩
  rw [h1]
  exact h2

/-- C10 (amended) at `pa = 0x1234` with 16 managed frames. -/
theorem kaddr_paddr_roundtrip_witness :
    _kaddr JOS_KERNBASE 16 "kern/pmap.c" 1 0x1234 = .ok (0x1234 + JOS_KERNBASE) ∧
    0x1234 + JOS_KERNBASE ≥ JOS_KERNBASE ∧
    _paddr JOS_KERNBASE "kern/pmap.c" 2 (0x1234 + JOS_KERNBASE) = .ok 0x1234 ∧
    (_kaddr JOS_KERNBASE 16 "kern/pmap.c" 1 0x1234 >>= _paddr JOS_KERNBASE "kern/pmap.c" 2)
      = .ok 0x1234 :=
  kaddr_paddr_roundtrip JOS_KERNBASE 16 0x1234 "kern/pmap.c" "kern/pmap.c" 1 2
    (by decide) (by decide)

/-! ## IDT setup (kern/trap.c) -/

/-- C7: the claim holds for 18 of the 19 vectors and fails for NMI. After
`trap_init` on the zero-initialized `idt`, with the trap numbers of the JOS
headers, `idt[T_NMI]` is still the all-zero descriptor (not present, no
handler, no selector): line 70 of the source installs `nmi_entry` in
`idt[T_BRKPT]`, where line 71 overwrites it with `brkpt_entry`. Each of the
other 18 vectors is present, points at its own entry stub in segment `GD_KT`,
and has DPL 3 for breakpoint and syscall and 0 otherwise. -/
theorem trap_init_leaves_nmi_gate_unset (y : Symbols) (ts : Taskstate) (gdt : Nat → Segdesc)
    (tr : Nat) (idtr : Pseudodesc) :
    let t := trap_init jos y (bootTables ts gdt tr idtr)
    t.idt jos.T_NMI = zeroGate ∧ (t.idt jos.T_NMI).gd_p = 0 ∧
    (t.idt jos.T_NMI).gd_off = 0 ∧ (t.idt jos.T_NMI).gd_sel = 0 ∧
    t.idt jos.T_BRKPT = SETGATE jos 1 jos.GD_KT y.brkpt_entry 3 ∧
    ∀ p ∈ [ (jos.T_DIVIDE, y.divide_entry, 0), (jos.T_DEBUG, y.debug_entry, 0),
            (jos.T_BRKPT, y.brkpt_entry, 3), (jos.T_OFLOW, y.oflow_entry, 0),
            (jos.T_BOUND, y.bound_entry, 0), (jos.T_ILLOP, y.illop_entry, 0),
            (jos.T_DEVICE, y.device_entry, 0), (jos.T_DBLFLT, y.dblflt_entry, 0),
            (jos.T_TSS, y.tss_entry, 0), (jos.T_SEGNP, y.segnp_entry, 0),
            (jos.T_STACK, y.stack_entry, 0), (jos.T_GPFLT, y.gpflt_entry, 0),
            (jos.T_PGFLT, y.pgflt_entry, 0), (jos.T_FPERR, y.fperr_entry, 0),
            (jos.T_ALIGN, y.align_entry, 0), (jos.T_MCHK, y.mchk_entry, 0),
            (jos.T_SIMDERR, y.simderr_entry, 0), (jos.T_SYSCALL, y.syscall_entry, 3) ],
      (t.idt p.1).gd_p = 1 ∧ (t.idt p.1).gd_off = p.2.1 ∧ (t.idt p.1).gd_sel = jos.GD_KT ∧
      (t.idt p.1).gd_dpl = p.2.2 := by
  intro t
  refine ⟨rfl, rfl, rfl, rfl, rfl, ?_⟩
  intro p hp
  simp only [List.mem_cons, List.mem_singleton, List.not_mem_nil, or_false] at hp
  rcases hp with h | h | h | h | h | h | h | h | h | h | h | h | h | h | h | h | h | h <;>
    subst h <;> exact ⟨rfl, rfl, rfl, rfl⟩

/-- Whatever the trap numbers are, as long as `T_NMI` differs from the 18
vectors `trap_init` assigns, `trap_init` leaves `idt[T_NMI]` as it was. -/
theorem trap_init_idt_nmi_unchanged (c : Consts) (y : Symbols) (t : CpuTables)
    (h : ∀ v ∈ [c.T_DIVIDE, c.T_DEBUG, c.T_BRKPT, c.T_OFLOW, c.T_BOUND, c.T_ILLOP, c.T_DEVICE,
      c.T_DBLFLT, c.T_TSS, c.T_SEGNP, c.T_STACK, c.T_GPFLT, c.T_PGFLT, c.T_FPERR, c.T_ALIGN,
      c.T_MCHK, c.T_SIMDERR, c.T_SYSCALL], c.T_NMI ≠ v) :
    (trap_init c y t).idt c.T_NMI = t.idt c.T_NMI := by
  simp only [List.mem_cons, List.mem_singleton, List.not_mem_nil, or_false, forall_eq_or_imp,
    forall_eq] at h
  obtain ⟨h1, h2, h3, h4, h5, h6, h7, h8, h9, h10, h11, h12, h13, h14, h15, h16, h17, h18⟩ := h
  simp [trap_init, trap_init_percpu, setIdt, h1, h2, h3, h4, h5, h6, h7, h8, h9, h10, h11,
    h12, h13, h14, h15, h16, h17, h18]

/-! ## Running the kernel monad -/

theorem K.run_pure {α : Type} (a : α) (s : KState) : (pure a : K α) s = .ok a s := rfl

theorem K.run_bind {α β : Type} (x : K α) (f : α → K β) (s : KState) :
    (x >>= f) s = K.bind x f s := rfl

theorem readTf_writeTf (tf : TfPtr) (v : Trapframe) (m : Machine) :
    readTf tf (writeTf tf v m) = v := by
  cases tf <;> simp [readTf, writeTf]

/-- Source `print_trapframe` always returns, changes nothing but the log,
and appends exactly `print_trapframe_out`. -/
theorem print_trapframe_run (c : Consts) (tf : TfPtr) (s : KState) :
    print_trapframe c tf s = .ok () { s with log := s.log ++ print_trapframe_out c tf s } := by
  by_cases h1 : some tf = s.last_tf <;>
  by_cases h2 : (readTf tf s.m).tf_trapno = c.T_PGFLT <;>
  by_cases h3 : (readTf tf s.m).tf_cs &&& 3 = 0 <;>
  simp [print_trapframe_out, print_trapframe, print_regs, K.run_bind, K.bind, load_tf,
    cprintf, get_last_tf, rcr2, K.run_pure, Result.state, h1, h2, h3]

/-- The first line `print_trapframe` prints names the frame. -/
theorem print_trapframe_out_head (c : Consts) (tf : TfPtr) (s : KState) :
    (print_trapframe_out c tf s).head? = some (.cprintf "TRAP frame at %p\n" [.ptr tf]) := by
  by_cases h1 : some tf = s.last_tf <;>
  by_cases h2 : (readTf tf s.m).tf_trapno = c.T_PGFLT <;>
  by_cases h3 : (readTf tf s.m).tf_cs &&& 3 = 0 <;>
  simp [print_trapframe_out, print_trapframe, print_regs, K.run_bind, K.bind, load_tf,
    cprintf, get_last_tf, rcr2, K.run_pure, Result.state, h1, h2, h3]

/-! ## State invariants -/

theorem keeps_pure (P : KState → Prop) {α : Type} (a : α) : Keeps P (pure a : K α) :=
  ⟨fun _ h => h⟩

theorem keeps_bind (P : KState → Prop) {α β : Type} (x : K α) (f : α → K β)
    (hx : Keeps P x) (hf : ∀ a, Keeps P (f a)) : Keeps P (x >>= f) := by
  constructor
  intro s hs
  have h1 := hx.run s hs
  show P (K.bind x f s).state
  unfold K.bind
  cases hxs : x s with
  | ok a s1 =>
    rw [hxs] at h1
    exact (hf a).run s1 h1
  | stop h s1 =>
    rw [hxs] at h1
    exact h1

theorem keeps_ite (P : KState → Prop) {α : Type} (p : Prop) [Decidable p] (x y : K α)
    (hx : Keeps P x) (hy : Keeps P y) : Keeps P (if p then x else y) := by
  split_ifs
  · exact hx
  · exact hy

/-- A step that leaves the machine as it is keeps every property of the
machine. -/
theorem keeps_of_machine_eq (Q : Machine → Prop) {α : Type} (k : K α)
    (h : ∀ s, (k s).state.m = s.m) : Keeps (fun s => Q s.m) k := by
  constructor
  intro s hs
  show Q (k s).state.m
  rw [h s]
  exact hs

theorem machine_print_trapframe (c : Consts) (tf : TfPtr) (s : KState) :
    (print_trapframe c tf s).state.m = s.m := by
  rw [print_trapframe_run]
  rfl

theorem machine_load_env (e : Option Nat) (s : KState) : (load_env e s).state.m = s.m := by
  cases e <;> rfl

theorem machine_assert (b : Bool) (expr : String) (s : KState) :
    (assert b expr s).state.m = s.m := by
  cases b <;> rfl

theorem keeps_cprintf (Q : Machine → Prop) (fmt : String) (args : List Arg) :
    Keeps (fun s => Q s.m) (cprintf fmt args) :=
  keeps_of_machine_eq Q _ (fun _ => rfl)

theorem keeps_load_tf (Q : Machine → Prop) (tf : TfPtr) : Keeps (fun s => Q s.m) (load_tf tf) :=
  keeps_of_machine_eq Q _ (fun _ => rfl)

theorem keeps_get_curenv (Q : Machine → Prop) : Keeps (fun s => Q s.m) get_curenv :=
  keeps_of_machine_eq Q _ (fun _ => rfl)

theorem keeps_load_env (Q : Machine → Prop) (e : Option Nat) :
    Keeps (fun s => Q s.m) (load_env e) :=
  keeps_of_machine_eq Q _ (machine_load_env e)

theorem keeps_rcr2 (Q : Machine → Prop) : Keeps (fun s => Q s.m) rcr2 :=
  keeps_of_machine_eq Q _ (fun _ => rfl)

theorem keeps_panic (Q : Machine → Prop) {α : Type} (line : Nat) (fmt : String)
    (args : List Nat) : Keeps (fun s => Q s.m) (panic line fmt args : K α) :=
  keeps_of_machine_eq Q _ (fun _ => rfl)

theorem keeps_assert (Q : Machine → Prop) (b : Bool) (expr : String) :
    Keeps (fun s => Q s.m) (assert b expr) :=
  keeps_of_machine_eq Q _ (machine_assert b expr)

theorem keeps_env_pop_tf (Q : Machine → Prop) {α : Type} (tf : TfPtr) :
    Keeps (fun s => Q s.m) (env_pop_tf tf : K α) :=
  keeps_of_machine_eq Q _ (fun _ => rfl)

theorem keeps_env_run (Q : Machine → Prop) {α : Type} (e : Option Nat) :
    Keeps (fun s => Q s.m) (env_run e : K α) :=
  keeps_of_machine_eq Q _ (fun _ => rfl)

theorem keeps_print_trapframe (Q : Machine → Prop) (c : Consts) (tf : TfPtr) :
    Keeps (fun s => Q s.m) (print_trapframe c tf) :=
  keeps_of_machine_eq Q _ (machine_print_trapframe c tf)

theorem keeps_stack_env_destroy (ext : Externals) (e : Option Nat) (f0 : Trapframe)
    (hext : ExtKeepsStack ext) : Keeps (fun s => s.m.stack_tf = f0) (env_destroy ext e) :=
  ⟨fun s hs => (hext.2.2 e s.m).trans hs⟩

theorem keeps_stack_monitor (ext : Externals) (tf : TfPtr) (f0 : Trapframe)
    (hext : ExtKeepsStack ext) : Keeps (fun s => s.m.stack_tf = f0) (monitor ext tf) :=
  ⟨fun s hs => (hext.2.1 tf s.m).trans hs⟩

theorem keeps_stack_syscall (ext : Externals) (n a1 a2 a3 a4 a5 : Nat) (f0 : Trapframe)
    (hext : ExtKeepsStack ext) :
    Keeps (fun s => s.m.stack_tf = f0) (syscall ext n a1 a2 a3 a4 a5) :=
  ⟨fun s hs => (hext.1 n a1 a2 a3 a4 a5 s.m).trans hs⟩

theorem keeps_stack_store_env_tf (e : Nat) (v f0 : Trapframe) :
    Keeps (fun s => s.m.stack_tf = f0) (store_tf (.env_tf e) v) :=
  ⟨fun _ hs => hs⟩

/-- Called on `&envs[e].env_tf`, the page-fault handler never writes the
frame on the kernel stack. -/
theorem keeps_stack_page_fault_handler (c : Consts) (ext : Externals) (e : Nat)
    (f0 : Trapframe) (hext : ExtKeepsStack ext) :
    Keeps (fun s => s.m.stack_tf = f0) (page_fault_handler c ext (.env_tf e)) := by
  unfold page_fault_handler
  repeat' with_reducible first
    | exact keeps_print_trapframe (fun m => m.stack_tf = f0) _ _
    | apply keeps_bind
    | apply keeps_ite
    | apply keeps_pure
    | exact keeps_stack_env_destroy ext _ f0 hext
    | exact keeps_cprintf (fun m => m.stack_tf = f0) _ _
    | exact keeps_load_tf (fun m => m.stack_tf = f0) _
    | exact keeps_get_curenv (fun m => m.stack_tf = f0)
    | exact keeps_load_env (fun m => m.stack_tf = f0) _
    | exact keeps_rcr2 (fun m => m.stack_tf = f0)
    | exact keeps_panic (fun m => m.stack_tf = f0) _ _ _
    | intro _

/-- Called on `&envs[e].env_tf`, `trap_dispatch` never writes the frame on
the kernel stack: its one store goes through the pointer it was given. -/
theorem keeps_stack_trap_dispatch (c : Consts) (ext : Externals) (e : Nat)
    (f0 : Trapframe) (hext : ExtKeepsStack ext) :
    Keeps (fun s => s.m.stack_tf = f0) (trap_dispatch c ext (.env_tf e)) := by
  unfold trap_dispatch
  repeat' with_reducible first
    | exact keeps_print_trapframe (fun m => m.stack_tf = f0) _ _
    | exact keeps_stack_page_fault_handler c ext e f0 hext
    | apply keeps_bind
    | apply keeps_ite
    | apply keeps_pure
    | exact keeps_stack_env_destroy ext _ f0 hext
    | exact keeps_stack_monitor ext _ f0 hext
    | exact keeps_stack_syscall ext _ _ _ _ _ _ f0 hext
    | exact keeps_stack_store_env_tf e _ f0
    | exact keeps_cprintf (fun m => m.stack_tf = f0) _ _
    | exact keeps_load_tf (fun m => m.stack_tf = f0) _
    | exact keeps_get_curenv (fun m => m.stack_tf = f0)
    | exact keeps_panic (fun m => m.stack_tf = f0) _ _ _
    | exact keeps_env_pop_tf (fun m => m.stack_tf = f0) _
    | intro _

theorem keeps_stack_trap_epilogue (c : Consts) (f0 : Trapframe) :
    Keeps (fun s => s.m.stack_tf = f0) (trap_epilogue c) := by
  unfold trap_epilogue
  repeat' with_reducible first
    | apply keeps_bind
    | apply keeps_ite
    | apply keeps_pure
    | exact keeps_get_curenv (fun m => m.stack_tf = f0)
    | exact keeps_load_env (fun m => m.stack_tf = f0) _
    | exact keeps_assert (fun m => m.stack_tf = f0) _ _
    | exact keeps_env_run (fun m => m.stack_tf = f0) _
    | intro _
    | split

/-! ## Trap dispatch (kern/trap.c) -/

/-- C3: for every trap frame `*tf` whose vector is `T_SYSCALL` (the trap
numbers being distinct), `trap_dispatch` prints two lines, calls `syscall`
exactly once with number `reg_eax` and arguments
`(reg_edx, reg_ecx, reg_ebx, reg_edi, reg_esi)` as they stand in the frame,
writes the returned value to `reg_eax` of that same frame and to nothing
else, and ends in `env_pop_tf(tf)`; nothing else is logged, so there is no
`print_trapframe`, no `env_destroy` and no panic. -/
theorem syscall_dispatch (c : Consts) (ext : Externals) (tf : TfPtr) (s : KState)
    (hno : (readTf tf s.m).tf_trapno = c.T_SYSCALL)
    (hpf : c.T_SYSCALL ≠ c.T_PGFLT) (hbp : c.T_SYSCALL ≠ c.T_BRKPT) :
    let f := readTf tf s.m
    let r := ext.syscall f.tf_regs.reg_eax f.tf_regs.reg_edx f.tf_regs.reg_ecx
      f.tf_regs.reg_ebx f.tf_regs.reg_edi f.tf_regs.reg_esi s.m
    let f1 := readTf tf r.2
    let f2 := { f1 with tf_regs := { f1.tf_regs with reg_eax := r.1 } }
    trap_dispatch c ext tf s = .stop (.env_pop_tf tf)
      { m := writeTf tf f2 r.2
        last_tf := s.last_tf
        log := s.log ++
          [ .cprintf "中断号码：tf->tf_trapno=%d\n" [.num c.T_SYSCALL],
            .cprintf "kern/trap.c: syscallno=%x,a1=%x,a2=%x,a3=%x,a4=%x,a5=%x\n"
              [.num f.tf_regs.reg_eax, .num f.tf_regs.reg_edx, .num f.tf_regs.reg_ecx,
               .num f.tf_regs.reg_ebx, .num f.tf_regs.reg_edi, .num f.tf_regs.reg_esi],
            .syscall f.tf_regs.reg_eax f.tf_regs.reg_edx f.tf_regs.reg_ecx
              f.tf_regs.reg_ebx f.tf_regs.reg_edi f.tf_regs.reg_esi ] } ∧
    readTf tf (writeTf tf f2 r.2) = f2 := by
  intro f r f1 f2
  refine ⟨?_, readTf_writeTf _ _ _⟩
  simp only [trap_dispatch, K.run_bind, K.bind, load_tf, cprintf, K.run_pure, ite_apply, hno,
    hpf, hbp, if_false, if_true, syscall, store_tf, env_pop_tf]
  simp [f2, f1, r, f, hno]

/-- C3 at a user-mode syscall frame with `reg_eax = 8`: `syscall(8, 6, 7, 5,
1, 2)` is called once, its value 0 replaces `reg_eax`, and the frame is
resumed. -/
theorem syscall_dispatch_witness :
    (readTf (.env_tf 0) (state0 (frame0 48 0x1b) (frame0 48 0x1b) (some 0)).m).tf_trapno
      = jos.T_SYSCALL ∧
    jos.T_SYSCALL ≠ jos.T_PGFLT ∧ jos.T_SYSCALL ≠ jos.T_BRKPT ∧
    trap_dispatch jos ext0 (.env_tf 0) (state0 (frame0 48 0x1b) (frame0 48 0x1b) (some 0)) =
      .stop (.env_pop_tf (.env_tf 0))
        { m := writeTf (.env_tf 0) { frame0 48 0x1b with tf_regs := ⟨1, 2, 3, 4, 5, 6, 7, 0⟩ }
            (state0 (frame0 48 0x1b) (frame0 48 0x1b) (some 0)).m
          last_tf := none
          log :=
            [ .cprintf "中断号码：tf->tf_trapno=%d\n" [.num 48],
              .cprintf "kern/trap.c: syscallno=%x,a1=%x,a2=%x,a3=%x,a4=%x,a5=%x\n"
                [.num 8, .num 6, .num 7, .num 5, .num 1, .num 2],
              .syscall 8 6 7 5 1 2 ] } :=
  ⟨rfl, by decide, by decide,
    (syscall_dispatch jos ext0 (.env_tf 0) (state0 (frame0 48 0x1b) (frame0 48 0x1b) (some 0))
      rfl (by decide) (by decide)).1⟩

/-- The fall-through after `monitor(tf)`: on a breakpoint, whenever `monitor`
returns and leaves the frame as it was, `trap_dispatch` continues with the
unhandled-trap path. -/
theorem breakpoint_then_unhandled (c : Consts) (ext : Externals) (tf : TfPtr) (s : KState)
    (hno : (readTf tf s.m).tf_trapno = c.T_BRKPT)
    (hpf : c.T_BRKPT ≠ c.T_PGFLT) (hsc : c.T_BRKPT ≠ c.T_SYSCALL)
    (hmon : readTf tf (ext.monitor tf s.m) = readTf tf s.m) :
    let m1 := ext.monitor tf s.m
    let printed : List Event := s.log ++
      [ .cprintf "中断号码：tf->tf_trapno=%d\n" [.num c.T_BRKPT], .monitor tf ] ++
      print_trapframe_out c tf { s with m := m1 }
    trap_dispatch c ext tf s =
      if (readTf tf s.m).tf_cs = c.GD_KT then
        .stop (.panic ⟨"kern/trap.c", 209, "unhandled trap in kernel", []⟩)
          { m := m1, last_tf := s.last_tf, log := printed }
      else
        .ok () { m := ext.env_destroy m1.curenv m1, last_tf := s.last_tf,
                 log := printed ++ [.env_destroy m1.curenv] } := by
  intro m1 printed
  have hrun : ∀ l, print_trapframe c tf { m := m1, last_tf := s.last_tf, log := l } =
      .ok () { m := m1, last_tf := s.last_tf,
               log := l ++ print_trapframe_out c tf { s with m := m1 } } := fun l =>
    print_trapframe_run c tf { m := m1, last_tf := s.last_tf, log := l }
  have hno1 : (readTf tf m1).tf_trapno = c.T_BRKPT := by rw [hmon]; exact hno
  by_cases hcs : (readTf tf s.m).tf_cs = c.GD_KT
  · have hcs1 : (readTf tf m1).tf_cs = c.GD_KT := by rw [hmon]; exact hcs
    simp [trap_dispatch, K.run_bind, K.bind, load_tf, cprintf, monitor, hno, hpf, hsc, hrun,
      hcs, hcs1, hno1, panic, printed, K.run_pure, m1]
  · have hcs1 : ¬ (readTf tf m1).tf_cs = c.GD_KT := by rw [hmon]; exact hcs
    simp [trap_dispatch, K.run_bind, K.bind, load_tf, cprintf, monitor, hno, hpf, hsc, hrun,
      hcs, hcs1, hno1, get_curenv, env_destroy, printed, K.run_pure, m1]

/-- The fall-through after `page_fault_handler(tf)`: on a user-mode page
fault, whenever `env_destroy` returns and leaves the frame as it was,
`trap_dispatch` continues with the unhandled-trap path and calls
`env_destroy` a second time. -/
theorem user_page_fault_then_unhandled (c : Consts) (ext : Externals) (tf : TfPtr)
    (s : KState) (e : Nat)
    (hno : (readTf tf s.m).tf_trapno = c.T_PGFLT)
    (hcs : (readTf tf s.m).tf_cs &&& 3 = 3) (hcur : s.m.curenv = some e)
    (hbp : c.T_PGFLT ≠ c.T_BRKPT) (hsc : c.T_PGFLT ≠ c.T_SYSCALL) (hkt : c.GD_KT &&& 3 ≠ 3)
    (hdes : readTf tf (ext.env_destroy (some e) s.m) = readTf tf s.m) :
    let m1 := ext.env_destroy (some e) s.m
    trap_dispatch c ext tf s =
      .ok () { m := ext.env_destroy m1.curenv m1, last_tf := s.last_tf,
               log := s.log ++
                 [ .cprintf "中断号码：tf->tf_trapno=%d\n" [.num c.T_PGFLT],
                   .cprintf "打印：fault_va=%08x,tf->tf_cs dpl:0x%02x\n"
                     [.num s.m.cr2, .num 3],
                   .cprintf "[%08x] user fault va %08x ip %08x\n"
                     [.num (s.m.envs e).env_id, .num s.m.cr2, .num (readTf tf s.m).tf_eip] ] ++
                 print_trapframe_out c tf s ++ [.env_destroy (some e)] ++
                 print_trapframe_out c tf { s with m := m1 } ++ [.env_destroy m1.curenv] } := by
  intro m1
  have hrun : ∀ m l, print_trapframe c tf { m := m, last_tf := s.last_tf, log := l } =
      .ok () { m := m, last_tf := s.last_tf,
               log := l ++ print_trapframe_out c tf { s with m := m } } := fun m l =>
    print_trapframe_run c tf { m := m, last_tf := s.last_tf, log := l }
  have hrun0 : ∀ l, print_trapframe c tf { m := s.m, last_tf := s.last_tf, log := l } =
      .ok () { m := s.m, last_tf := s.last_tf,
               log := l ++ print_trapframe_out c tf s } := fun l => hrun s.m l
  have hno1 : (readTf tf m1).tf_trapno = c.T_PGFLT := by rw [hdes]; exact hno
  have hcs0 : ¬ (readTf tf s.m).tf_cs &&& 3 = 0 := by rw [hcs]; decide
  have hcs1 : ¬ (readTf tf m1).tf_cs = c.GD_KT := by
    rw [hdes]
    intro h
    rw [h] at hcs
    exact hkt hcs
  simp [trap_dispatch, page_fault_handler, K.run_bind, K.bind, load_tf, cprintf, rcr2,
    get_curenv, load_env, env_destroy, hno, hcs, hcs0, hcur, hbp, hsc, hrun0, hrun, hno1, hcs1,
    K.run_pure, m1]

/-- C4: the claim fails on the code. On a user-mode page fault
(`tf_trapno = T_PGFLT`, `tf_cs = 0x1b`) with an `env_destroy` that returns,
`page_fault_handler` calls `env_destroy(curenv)` and returns, and
`trap_dispatch`, which has no `return` after the call, goes on to its
unhandled-trap path and calls `env_destroy(curenv)` again: two calls, not
one. The same holds when the trap enters through `trap`. -/
theorem user_page_fault_destroys_twice :
    (frame0 14 0x1b).tf_trapno = jos.T_PGFLT ∧ (frame0 14 0x1b).tf_cs &&& 3 = 3 ∧
    (trap_dispatch jos ext0 (.env_tf 0)
      (state0 (frame0 14 0x1b) (frame0 14 0x1b) (some 0))).stopped = none ∧
    env_destroy_calls (trap_dispatch jos ext0 (.env_tf 0)
      (state0 (frame0 14 0x1b) (frame0 14 0x1b) (some 0))).state.log = [some 0, some 0] ∧
    env_destroy_calls (trap jos ext0 .stack
      (state0 (frame0 14 0x1b) (frame0 48 0x1b) (some 0))).state.log = [some 0, some 0] :=
  ⟨rfl, rfl, rfl, rfl, rfl⟩

/-- The kernel-mode page fault where the code does reach its panic: for every
trap frame with vector `T_PGFLT` and `(tf_cs & 3) == 0`, dispatched while
`curenv` is not `NULL`, `trap_dispatch` ends in the panic of
`page_fault_handler` (kern/trap.c:274) whose arguments are `curenv->env_id`,
the fault address read from `%cr2` and the frame's `tf_eip`; before that only
two lines are printed, and `env_destroy` is not called. -/
theorem kernel_page_fault_panics (c : Consts) (ext : Externals) (tf : TfPtr) (s : KState)
    (e : Nat) (hno : (readTf tf s.m).tf_trapno = c.T_PGFLT)
    (hcs : (readTf tf s.m).tf_cs &&& 3 = 0) (hcur : s.m.curenv = some e) :
    trap_dispatch c ext tf s =
      .stop (.panic ⟨"kern/trap.c", 274, "[%08x] kernel fault va %08x ip %08x\n",
          [(s.m.envs e).env_id, s.m.cr2, (readTf tf s.m).tf_eip]⟩)
        { s with log := s.log ++
          [ .cprintf "中断号码：tf->tf_trapno=%d\n" [.num c.T_PGFLT],
            .cprintf "打印：fault_va=%08x,tf->tf_cs dpl:0x%02x\n" [.num s.m.cr2, .num 0] ] } ∧
    env_destroy_calls (trap_dispatch c ext tf s).state.log = env_destroy_calls s.log := by
  have h : trap_dispatch c ext tf s =
      .stop (.panic ⟨"kern/trap.c", 274, "[%08x] kernel fault va %08x ip %08x\n",
          [(s.m.envs e).env_id, s.m.cr2, (readTf tf s.m).tf_eip]⟩)
        { s with log := s.log ++
          [ .cprintf "中断号码：tf->tf_trapno=%d\n" [.num c.T_PGFLT],
            .cprintf "打印：fault_va=%08x,tf->tf_cs dpl:0x%02x\n" [.num s.m.cr2, .num 0] ] } := by
    simp [trap_dispatch, page_fault_handler, K.run_bind, K.bind, load_tf, cprintf, rcr2,
      get_curenv, load_env, panic, hno, hcs, hcur]
  refine ⟨h, ?_⟩
  rw [h]
  simp [Result.state, env_destroy_calls]

/-- A kernel-mode page fault (`tf_cs = GD_KT`) taken while environment 0 is
current: the panic carries its id `0x1000`, the fault address `0xdeadbeef`
and `tf_eip = 0x800020`. -/
theorem kernel_page_fault_panics_witness :
    trap_dispatch jos ext0 .stack (state0 (frame0 14 8) (frame0 48 0x1b) (some 0)) =
      .stop (.panic ⟨"kern/trap.c", 274, "[%08x] kernel fault va %08x ip %08x\n",
          [0x1000, 0xdeadbeef, 0x800020]⟩)
        { state0 (frame0 14 8) (frame0 48 0x1b) (some 0) with log :=
          [ .cprintf "中断号码：tf->tf_trapno=%d\n" [.num 14],
            .cprintf "打印：fault_va=%08x,tf->tf_cs dpl:0x%02x\n" [.num 0xdeadbeef, .num 0] ] } ∧
    env_destroy_calls
      (trap_dispatch jos ext0 .stack (state0 (frame0 14 8) (frame0 48 0x1b) (some 0))).state.log
      = [] :=
  kernel_page_fault_panics jos ext0 .stack (state0 (frame0 14 8) (frame0 48 0x1b) (some 0)) 0
    rfl rfl rfl

/-- C5: the claim fails on the code. On a kernel-mode page fault
(`tf_trapno = T_PGFLT`, `tf_cs = GD_KT`) taken while `curenv` is `NULL`, as
between `trap_init` and the first `env_run`, `page_fault_handler` evaluates
the panic argument `curenv->env_id` (kern/trap.c:274-275) through the null
pointer before `_panic` is entered: dispatch prints two lines and stops in
the null dereference, not in the panic carrying the fault address and
`tf_eip`. The user branch of `trap` and its epilogue check `curenv` first
(`assert(curenv)`); this path does not. -/
theorem kernel_page_fault_without_curenv :
    (frame0 14 8).tf_trapno = jos.T_PGFLT ∧ (frame0 14 8).tf_cs &&& 3 = 0 ∧
    (trap_dispatch jos ext0 .stack (state0 (frame0 14 8) (frame0 48 0x1b) none)).stopped
      = some .null_deref ∧
    (trap_dispatch jos ext0 .stack (state0 (frame0 14 8) (frame0 48 0x1b) none)).state.log =
      [ .cprintf "中断号码：tf->tf_trapno=%d\n" [.num 14],
        .cprintf "打印：fault_va=%08x,tf->tf_cs dpl:0x%02x\n" [.num 0xdeadbeef, .num 0] ] ∧
    (trap jos ext0 .stack (state0 (frame0 14 8) (frame0 48 0x1b) none)).stopped
      = some .null_deref :=
  ⟨rfl, rfl, rfl, rfl, rfl⟩

/-- C8: the claim fails on the code. On a breakpoint (`tf_trapno = T_BRKPT`)
`trap_dispatch` calls `monitor(tf)` once, but has no `return` after the call:
when `monitor` returns it goes on to its unhandled-trap path. From user mode
(`tf_cs = 0x1b`) it prints the frame and calls `env_destroy(curenv)`; from
kernel mode (`tf_cs = GD_KT`) it panics with "unhandled trap in kernel". -/
theorem breakpoint_falls_through :
    (frame0 3 0x1b).tf_trapno = jos.T_BRKPT ∧
    (trap_dispatch jos ext0 (.env_tf 0)
      (state0 (frame0 3 0x1b) (frame0 3 0x1b) (some 0))).state.log =
      [ .cprintf "中断号码：tf->tf_trapno=%d\n" [.num 3], .monitor (.env_tf 0) ] ++
        print_trapframe_out jos (.env_tf 0) (state0 (frame0 3 0x1b) (frame0 3 0x1b) (some 0)) ++
        [ .env_destroy (some 0) ] ∧
    env_destroy_calls (trap_dispatch jos ext0 (.env_tf 0)
      (state0 (frame0 3 0x1b) (frame0 3 0x1b) (some 0))).state.log = [some 0] ∧
    (frame0 3 8).tf_trapno = jos.T_BRKPT ∧
    (trap_dispatch jos ext0 .stack
      (state0 (frame0 3 8) (frame0 48 0x1b) (some 0))).stopped =
      some (.panic ⟨"kern/trap.c", 209, "unhandled trap in kernel", []⟩) :=
  ⟨rfl, rfl, rfl, rfl, rfl⟩

/-- C9: `trap`, entered with the frame `f` on the kernel stack, first checks
that interrupts are disabled (a failed check stops it before anything is
written) and prints one line. If `(f.tf_cs & 3) == 3` and `curenv` is
environment `e`, it then stores `f` in `curenv->env_tf`, leaves the stack
frame as it is, and runs `trap_dispatch` on `&curenv->env_tf`, followed by
the common epilogue; provided the external functions leave the stack frame
alone, the stack frame still equals `f` when `trap` is over, whatever
dispatch wrote. If `(f.tf_cs & 3) != 3`, it changes no memory before
dispatching and runs `trap_dispatch` on the stack frame itself. -/
theorem trap_dispatches_on_saved_copy (c : Consts) (ext : Externals) (s : KState) :
    let f := s.m.stack_tf
    let entry : List Event :=
      s.log ++ [.cprintf "Incoming TRAP frame at %p\n" [.ptr .stack]]
    (f.tf_cs &&& 3 = 3 → ∀ e, s.m.curenv = some e →
      let s1 : KState :=
        { m := writeTf (.env_tf e) f s.m, last_tf := some (.env_tf e), log := entry }
      (s1.m.envs e).env_tf = f ∧ s1.m.stack_tf = f ∧
      trap c ext .stack s =
        (if s.m.eflags &&& c.FL_IF = 0 then
          (trap_dispatch c ext (.env_tf e) >>= fun _ => trap_epilogue c) s1
        else .stop (.assert_failed "!(read_eflags() & FL_IF)") s) ∧
      (ExtKeepsStack ext → (trap c ext .stack s).state.m.stack_tf = f)) ∧
    (f.tf_cs &&& 3 ≠ 3 →
      trap c ext .stack s =
        (if s.m.eflags &&& c.FL_IF = 0 then
          (trap_dispatch c ext .stack >>= fun _ => trap_epilogue c)
            { m := s.m, last_tf := some .stack, log := entry }
        else .stop (.assert_failed "!(read_eflags() & FL_IF)") s)) := by
  intro f entry
  constructor
  · intro hcs e hcur s1
    have heq : trap c ext .stack s =
        (if s.m.eflags &&& c.FL_IF = 0 then
          (trap_dispatch c ext (.env_tf e) >>= fun _ => trap_epilogue c) s1
        else .stop (.assert_failed "!(read_eflags() & FL_IF)") s) := by
      have hcs1 : s.m.stack_tf.tf_cs &&& 3 = 3 := hcs
      by_cases hif : s.m.eflags &&& c.FL_IF = 0
      · simp [trap, K.run_bind, K.bind, read_eflags, assert, cprintf, load_tf, get_curenv,
          store_tf, set_last_tf, K.run_pure, hif, hcs1, hcur, s1, entry, f, readTf]
      · simp [trap, K.run_bind, K.bind, read_eflags, assert, hif]
    refine ⟨?_, rfl, heq, ?_⟩
    · simp [s1, writeTf]
    · intro hext
      rw [heq]
      split_ifs
      · exact (keeps_bind (fun s => s.m.stack_tf = f) _ _
          (keeps_stack_trap_dispatch c ext e f hext)
          (fun _ => keeps_stack_trap_epilogue c f)).run s1 rfl
      · rfl
  · intro hcs
    have hcs1 : ¬ s.m.stack_tf.tf_cs &&& 3 = 3 := hcs
    by_cases hif : s.m.eflags &&& c.FL_IF = 0
    · simp [trap, K.run_bind, K.bind, read_eflags, assert, cprintf, load_tf,
        set_last_tf, K.run_pure, hif, hcs1, entry, readTf]
    · simp [trap, K.run_bind, K.bind, read_eflags, assert, hif]

/-- C9 at a user-mode syscall: `trap` resumes `&envs[0].env_tf`, the return
value 0 is in `reg_eax` of that saved frame, and the frame on the stack
still holds `reg_eax = 8`. -/
theorem trap_dispatches_on_saved_copy_witness :
    (frame0 48 0x1b).tf_cs &&& 3 = 3 ∧
    (trap jos ext0 .stack (state0 (frame0 48 0x1b) (frame0 0 0x1b) (some 0))).stopped
      = some (.env_pop_tf (.env_tf 0)) ∧
    ((trap jos ext0 .stack (state0 (frame0 48 0x1b) (frame0 0 0x1b) (some 0))).state.m.envs 0).env_tf
      = { frame0 48 0x1b with tf_regs := ⟨1, 2, 3, 4, 5, 6, 7, 0⟩ } ∧
    (trap jos ext0 .stack (state0 (frame0 48 0x1b) (frame0 0 0x1b) (some 0))).state.m.stack_tf
      = frame0 48 0x1b :=
  ⟨rfl, rfl, rfl,
    ((trap_dispatches_on_saved_copy jos ext0
      (state0 (frame0 48 0x1b) (frame0 0 0x1b) (some 0))).1 rfl 0 rfl).2.2.2
      ⟨fun _ _ _ _ _ _ _ => rfl, fun _ _ => rfl, fun e m => by cases e <;> rfl⟩⟩

end JOS
